/-
Verification of the Logistics-Document-Guardian (LDG) repository core:
the OCR text extractor (src/ocr/engine.py), the truth-set validator
(src/ldg/validator.py) and the CLI exit-code dispatch (src/cli/main.py),
shallowly embedded in Lean 4.

External effects (filesystem existence checks, subprocess execution,
extractor behaviour) are modelled as explicit function parameters; Python
exceptions are modelled as explicit result constructors.
-/
import Mathlib

namespace LDG

/-! ## Data model

A truth row (one CSV record with the four required columns, all read as
strings by `csv.DictReader`), and a mismatch record (the row plus the
diagnostic fields the validator adds before appending it). -/

structure Row where
  file_name : String
  page : String
  field_name : String
  expected_text : String
deriving DecidableEq, Repr

structure Mismatch where
  row : Row
  validation_error : String
  ocr_output_snippet : Option String
deriving DecidableEq, Repr

/-- Outcome of one call to the extractor, as the validator's `try` block
distinguishes it: normal return of text, a raised `FileNotFoundError`
(handled by `except FileNotFoundError as e` with `str(e)`), or any other
raised `Exception` (handled by `except Exception as e`). -/
inductive ExtractOutcome where
  | ok (text : String)
  | fileNotFound (msg : String)
  | error (msg : String)
deriving DecidableEq, Repr

/-! ## Python primitives used by validator.py -/

/-- Value of a run of decimal digits, most significant first. -/
def digitsToNat (cs : List Char) : Nat :=
  cs.foldl (fun n c => 10 * n + (c.toNat - 48)) 0

/-- A nonempty all-digit run parses; anything else is a `ValueError`. -/
def natPart (cs : List Char) : Option Nat :=
  if cs ≠ [] ∧ cs.all Char.isDigit then some (digitsToNat cs) else none

/-- Leading and trailing whitespace removed, as `int()` tolerates. -/
def pyStrip (l : List Char) : List Char :=
  ((l.dropWhile Char.isWhitespace).reverse.dropWhile Char.isWhitespace).reverse

/-- Python `int(s)` on a CSV cell: strip surrounding whitespace, optional
sign, then decimal digits; `none` models the raised `ValueError`. -/
def pyInt (s : String) : Option Int :=
  match pyStrip s.data with
  | [] => none
  | c :: rest =>
    if c = '+' then (natPart rest).map Int.ofNat
    else if c = '-' then (natPart rest).map (fun n => -(n : Int))
    else (natPart (c :: rest)).map Int.ofNat

/-- Whether `needle` is a prefix of `hay`. -/
def isPrefixOfL : List Char → List Char → Bool
  | [], _ => true
  | _ :: _, [] => false
  | a :: as, b :: bs => a = b && isPrefixOfL as bs

/-- Whether `needle` occurs contiguously inside `hay`. -/
def containsL (needle : List Char) : List Char → Bool
  | [] => needle.isEmpty
  | c :: rest => isPrefixOfL needle (c :: rest) || containsL needle rest

/-- Python `needle in hay` on strings: contiguous substring containment
(an empty needle is contained in everything). -/
def pyIn (needle hay : String) : Bool :=
  containsL needle.data hay.data

/-! ## Validator (src/ldg/validator.py)

`fs` models `Path.exists` on resolved paths; `ex` models the behaviour of
the extractor call for a given resolved path and parsed page. -/

/-- `pdf_dir / file_name` (the resolved path the validator builds). -/
def resolve (pdfDir fileName : String) : String :=
  pdfDir ++ "/" ++ fileName

/-- The page number the validator passes on: `int(row["page"])`, with a
`ValueError` silently replaced by `1` (validator.py lines 66-71). -/
def pageOf (r : Row) : Int :=
  (pyInt r.page).getD 1

/-- Python `len(t)`: the number of characters (code points) of `t`. -/
def pyLen (t : String) : Nat :=
  t.data.length

/-- Python `t[:n]`: the first `n` characters of `t`. -/
def pyTake (t : String) (n : Nat) : String :=
  ⟨t.data.take n⟩

/-- The `ocr_output_snippet` value built at validator.py line 88:
`ocr_text[:200] + ("..." if len(ocr_text) > 200 else "")`. -/
def snippet (t : String) : String :=
  pyTake t 200 ++ (if 200 < pyLen t then "..." else "")

/-- One iteration of the validator's row loop (validator.py lines 52-100).
Returns the mismatch record appended for this row (if any) together with
the list of extractor invocations `(resolved path, page)` made for it. -/
def processRow (fs : String → Bool) (ex : String → Int → ExtractOutcome)
    (pdfDir : String) (r : Row) : Option Mismatch × List (String × Int) :=
  let pdfPath := resolve pdfDir r.file_name
  if fs pdfPath then
    match ex pdfPath (pageOf r) with
    | .ok t =>
      if pyIn r.expected_text t then (none, [(pdfPath, pageOf r)])
      else (some ⟨r, "Mismatch", some (snippet t)⟩, [(pdfPath, pageOf r)])
    | .fileNotFound msg => (some ⟨r, msg, none⟩, [(pdfPath, pageOf r)])
    | .error msg =>
      (some ⟨r, "Unexpected error: " ++ msg, none⟩, [(pdfPath, pageOf r)])
  else
    (some ⟨r, "PDF not found: " ++ pdfPath, none⟩, [])

/-- The mismatch list the row loop accumulates, in row order. -/
def validateRows (fs : String → Bool) (ex : String → Int → ExtractOutcome)
    (pdfDir : String) (rows : List Row) : List Mismatch :=
  rows.filterMap (fun r => (processRow fs ex pdfDir r).1)

/-- All extractor invocations the row loop performs, in row order. -/
def validateCalls (fs : String → Bool) (ex : String → Int → ExtractOutcome)
    (pdfDir : String) (rows : List Row) : List (String × Int) :=
  rows.flatMap (fun r => (processRow fs ex pdfDir r).2)

/-- The truth source as `validate` observes it: the CSV file may be
missing, opening/reading it may raise, or it yields a header list and a
list of rows. -/
inductive TruthSource where
  | missing
  | unreadable (msg : String)
  | table (headers : List String) (rows : List Row)

/-- The header set required at validator.py line 46. -/
def requiredHeaders : List String :=
  ["file_name", "page", "field_name", "expected_text"]

/-- `required_headers.issubset(reader.fieldnames)`. -/
def hasRequiredHeaders (headers : List String) : Bool :=
  requiredHeaders.all (fun h => headers.contains h)

/-- `validate` (validator.py lines 15-108): raises (`Except.error`) when
the truth CSV is missing, unreadable or lacks a required header; otherwise
runs the row loop to completion and returns the mismatch list. -/
def validate (fs : String → Bool) (ex : String → Int → ExtractOutcome)
    (pdfDir : String) : TruthSource → Except String (List Mismatch)
  | .missing => .error "Truth CSV file not found"
  | .unreadable msg => .error msg
  | .table headers rows =>
    if hasRequiredHeaders headers then .ok (validateRows fs ex pdfDir rows)
    else .error "Truth CSV missing required headers"

/-! ## The call-site binding between validator.py and engine.py

validator.py line 9 imports `extract_text` from `src.ocr.engine`, whose
parameter list (engine.py line 20) is `(pdf_path, page, lang)`.  The call
at validator.py lines 76-81 passes the keyword arguments
`pdf_path, project_id, location, processor_id`.  Python raises
`TypeError` for an unexpected keyword argument before the callee body
runs; the validator's `except Exception` handler then records it. -/

/-- Parameter names accepted by `extract_text` (engine.py line 20). -/
def extractTextParams : List String := ["pdf_path", "page", "lang"]

/-- Keyword arguments used at the call site (validator.py lines 76-81). -/
def validatorCallKeywords : List String :=
  ["pdf_path", "project_id", "location", "processor_id"]

/-- The keywords of the call that the callee does not accept. -/
def unexpectedKeywords : List String :=
  validatorCallKeywords.filter (fun k => !extractTextParams.contains k)

/-- Message of the `TypeError` CPython raises for the first unexpected
keyword argument of the call. -/
def unexpectedKeywordMsg : String :=
  "extract_text() got an unexpected keyword argument " ++
    (unexpectedKeywords.headD "")

/-- The extractor call exactly as validator.py writes it: if the call
carries an unexpected keyword argument, a `TypeError` (a non-
`FileNotFoundError` exception) is raised at the call itself; only
otherwise would the engine behaviour `engine` be reached. -/
def callExtractText (engine : String → Int → ExtractOutcome)
    (path : String) (page : Int) : ExtractOutcome :=
  match unexpectedKeywords with
  | [] => engine path page
  | _ :: _ => .error unexpectedKeywordMsg

/-- `validate` composed with the call site as written. -/
def validateAsWritten (fs : String → Bool)
    (engine : String → Int → ExtractOutcome) (pdfDir : String)
    (src : TruthSource) : Except String (List Mismatch) :=
  validate fs (callExtractText engine) pdfDir src

/-! ## Extractor (src/ocr/engine.py, `extract_text`, lines 20-106)

The environment of one call: whether the input PDF exists, what
`subprocess.run` does when handed the command, and what (if anything) the
expected output text file `output_base.txt` contains afterwards. -/

/-- What `subprocess.run(cmd, check=True)` does: return normally (exit
code 0, captured stdout/stderr), raise `subprocess.CalledProcessError`
(non-zero exit), or raise `FileNotFoundError` (tool binary missing). -/
inductive SubprocResult where
  | success (stdout stderr : String)
  | exitNonzero (code : Int) (stderr : String)
  | binaryMissing (msg : String)
deriving DecidableEq, Repr

structure OcrEnv where
  pdfExists : Bool
  run : List String → SubprocResult
  outputFileContent : Option String

/-- What a call to `extract_text` does, as Python exceptions propagate
from engine.py: every `except` clause at lines 96-106 re-raises. -/
inductive EngineResult where
  | ok (text : String)
  | raisesFileNotFound (msg : String)
  | raisesCalledProcessError (code : Int)
  | raisesRuntimeError (msg : String)
deriving DecidableEq, Repr

/-- The temporary output base `tmpdir / f"{pdf_path.stem}_p{page}"`
(engine.py line 48); `stem` is the PDF file name without its suffix. -/
def outputBase (tmpdir stem : String) (page : Int) : String :=
  tmpdir ++ "/" ++ stem ++ "_p" ++ toString page

/-- The single external command engine.py builds (lines 49-67): tesseract
invoked directly on the PDF with the language and `--psm 4`.  The page
number appears only inside the output base name; no rasterizer runs, no
DPI and no first/last-page bound is passed anywhere. -/
def tesseractCmd (pdfPath outBase lang : String) : List String :=
  ["tesseract", pdfPath, outBase, "-l", lang, "--psm", "4"]

/-- Every external process invocation `extract_text` performs, in order
(engine.py lines 45-77): none when the missing-PDF check fires, otherwise
exactly the one tesseract command. -/
def engineInvocations (env : OcrEnv) (pdfPath : String) (page : Int)
    (lang tmpdir stem : String) : List (List String) :=
  if env.pdfExists then [tesseractCmd pdfPath (outputBase tmpdir stem page) lang]
  else []

/-- `extract_text(pdf_path, page, lang)` (engine.py lines 20-106).  The
missing-PDF check raises `FileNotFoundError` (line 37).  There is no
check of `page` anywhere.  A `FileNotFoundError` or `CalledProcessError`
from `subprocess.run` is logged and re-raised (lines 96-103); a missing
output file raises `RuntimeError` (line 90); otherwise the output file's
text is returned (lines 93-94). -/
def extract_text (env : OcrEnv) (pdfPath : String) (page : Int)
    (lang tmpdir stem : String) : EngineResult :=
  if env.pdfExists then
    match env.run (tesseractCmd pdfPath (outputBase tmpdir stem page) lang) with
    | .binaryMissing msg => .raisesFileNotFound msg
    | .exitNonzero code _ => .raisesCalledProcessError code
    | .success _ stderr =>
      match env.outputFileContent with
      | none => .raisesRuntimeError
          ("Tesseract failed to create output file. Check Tesseract logs or command syntax. Stderr: "
            ++ stderr)
      | some text => .ok text
  else .raisesFileNotFound ("Input PDF not found: " ++ pdfPath)

/-! ## CLI exit-code dispatch (src/cli/main.py, `run_validation`)

Python exception classes relevant to the handlers at main.py lines
158-169, with their standard hierarchy: `typer.Exit` is
`click.exceptions.Exit`, a subclass of `RuntimeError`, hence of
`Exception`; `FileNotFoundError` and `ImportError` are `Exception`
subclasses too. -/

inductive Exc where
  | exit (code : Nat)
  | fileNotFound (msg : String)
  | importError (msg : String)
  | other (msg : String)
deriving DecidableEq, Repr

/-- `isinstance(e, FileNotFoundError)`. -/
def isFileNotFoundError : Exc → Bool
  | .fileNotFound _ => true
  | _ => false

/-- `isinstance(e, ImportError)`. -/
def isImportError : Exc → Bool
  | .importError _ => true
  | _ => false

/-- `isinstance(e, Exception)`: all four modelled classes qualify
(`typer.Exit` subclasses `RuntimeError`, which subclasses `Exception`). -/
def isException : Exc → Bool
  | _ => true

/-- What the `validate(...)` call inside the CLI's `try` block does. -/
inductive ValidateBehavior where
  | returns (mismatches : List Mismatch)
  | raises (e : Exc)

/-- The exception that escapes the `try` block of main.py lines 97-156:
`typer.Exit(0)` on an empty mismatch list (line 109), `typer.Exit(1)` on
a non-empty one (line 156), or whatever `validate` raised. -/
def tryBlockExc (v : ValidateBehavior) : Exc :=
  match v with
  | .returns ms => if ms.isEmpty then .exit 0 else .exit 1
  | .raises e => e

/-- The `except` chain of main.py lines 158-169 applied to the exception
escaping the `try` block; each handler raises a fresh `typer.Exit`. -/
def handleExc (e : Exc) : Exc :=
  if isFileNotFoundError e then .exit 2
  else if isImportError e then .exit 5
  else if isException e then .exit 3
  else e

/-- `run_validation` (main.py lines 34-169) reduced to its exit-code
dispatch: missing GCP project or processor id exits 4 before the `try`
block (lines 86-91); otherwise the `try`/`except` statement runs. -/
def run_validation (projectId processorId : Option String)
    (v : ValidateBehavior) : Exc :=
  match projectId with
  | none => .exit 4
  | some _ =>
    match processorId with
    | none => .exit 4
    | some _ => handleExc (tryBlockExc v)

/-! ## Shared lemmas -/

theorem pyLen_append (a b : String) : pyLen (a ++ b) = pyLen a + pyLen b :=
  String.length_append a b

theorem append_ne_of_length_lt (a b c : String) (h : pyLen c < pyLen a) :
    a ++ b ≠ c := by
  intro he
  have h2 := congrArg pyLen he
  rw [pyLen_append] at h2
  omega

theorem validateRows_append (fs : String → Bool)
    (ex : String → Int → ExtractOutcome) (d : String) (l₁ l₂ : List Row) :
    validateRows fs ex d (l₁ ++ l₂) =
      validateRows fs ex d l₁ ++ validateRows fs ex d l₂ := by
  simp [validateRows, List.filterMap_append]

theorem validateRows_cons (fs : String → Bool)
    (ex : String → Int → ExtractOutcome) (d : String) (r : Row) (l : List Row) :
    validateRows fs ex d (r :: l) =
      ((processRow fs ex d r).1).toList ++ validateRows fs ex d l := by
  rw [validateRows, List.filterMap_cons]
  cases (processRow fs ex d r).1 <;> simp [validateRows]

/-! ## Claims -/

/-- Claim C4: for a truth row whose resolved PDF exists and whose
extraction returns text `t`, the validator emits no record for the row
when `expected_text` occurs in `t` (case-sensitively), and exactly one
record with `validation_error = "Mismatch"` and the 200-character
ellipsis-suffixed snippet when it does not; rows around it are
unaffected. -/
theorem C4_substring_check (fs : String → Bool)
    (ex : String → Int → ExtractOutcome) (d : String) (l₁ l₂ : List Row)
    (r : Row) (t : String)
    (hfs : fs (resolve d r.file_name) = true)
    (hex : ex (resolve d r.file_name) (pageOf r) = .ok t) :
    (pyIn r.expected_text t = true →
      validateRows fs ex d (l₁ ++ r :: l₂) =
        validateRows fs ex d l₁ ++ validateRows fs ex d l₂) ∧
    (pyIn r.expected_text t = false →
      validateRows fs ex d (l₁ ++ r :: l₂) =
        validateRows fs ex d l₁ ++
          ⟨r, "Mismatch",
            some (pyTake t 200 ++ (if 200 < pyLen t then "..." else ""))⟩ ::
            validateRows fs ex d l₂) := by
  constructor <;> intro hin <;>
    rw [validateRows_append, validateRows_cons] <;>
    simp [processRow, hfs, hex, hin, snippet]

/-- Claim C4 witness: a matching row yields no record; a non-matching one
yields exactly the `"Mismatch"` record. -/
theorem C4_substring_check_witness :
    (pyIn "INV-1234" "InvoiceNumber: INV-1234" = true →
      validateRows (fun _ => true)
          (fun _ _ => ExtractOutcome.ok "InvoiceNumber: INV-1234") "d"
          ([] ++ ⟨"dummy.pdf", "1", "InvoiceNumber", "INV-1234"⟩ :: []) =
        validateRows (fun _ => true)
          (fun _ _ => ExtractOutcome.ok "InvoiceNumber: INV-1234") "d" [] ++
        validateRows (fun _ => true)
          (fun _ _ => ExtractOutcome.ok "InvoiceNumber: INV-1234") "d" []) ∧
    (pyIn "INV-1234" "InvoiceNumber: INV-1234" = false →
      validateRows (fun _ => true)
          (fun _ _ => ExtractOutcome.ok "InvoiceNumber: INV-1234") "d"
          ([] ++ ⟨"dummy.pdf", "1", "InvoiceNumber", "INV-1234"⟩ :: []) =
        validateRows (fun _ => true)
          (fun _ _ => ExtractOutcome.ok "InvoiceNumber: INV-1234") "d" [] ++
          ⟨⟨"dummy.pdf", "1", "InvoiceNumber", "INV-1234"⟩, "Mismatch",
            some (pyTake "InvoiceNumber: INV-1234" 200 ++
              (if 200 < pyLen "InvoiceNumber: INV-1234" then "..." else ""))⟩ ::
            validateRows (fun _ => true)
              (fun _ _ => ExtractOutcome.ok "InvoiceNumber: INV-1234") "d" []) :=
  C4_substring_check (fun _ => true)
    (fun _ _ => ExtractOutcome.ok "InvoiceNumber: INV-1234") "d" [] []
    ⟨"dummy.pdf", "1", "InvoiceNumber", "INV-1234"⟩ "InvoiceNumber: INV-1234"
    (by decide) (by decide)

/-- Claim C5 counterexample: an extractor raising a generic exception
with message `"boom"` makes the validator record
`validation_error = "Unexpected error: boom"` (validator.py line 99),
which is not the exception's message string, contradicting the claim that
`validation_error` equals the exception's message for every exception. -/
theorem C5_counterexample :
    validateRows (fun _ => true) (fun _ _ => ExtractOutcome.error "boom") "d"
        [⟨"a.pdf", "1", "f", "x"⟩] =
      [⟨⟨"a.pdf", "1", "f", "x"⟩, "Unexpected error: boom", none⟩] ∧
    "Unexpected error: boom" ≠ "boom" := by
  decide

/-- Claim C5 as amended: an extractor exception is caught per-row and
yields exactly one mismatch for that row, with `validation_error` equal
to the exception's message when the exception is a `FileNotFoundError`
and to `"Unexpected error: " ++ message` for any other exception; rows
before and after it are processed unaffected. -/
theorem C5_exception_per_row (fs : String → Bool)
    (ex : String → Int → ExtractOutcome) (d : String) (l₁ l₂ : List Row)
    (r : Row) (msg : String)
    (hfs : fs (resolve d r.file_name) = true) :
    (ex (resolve d r.file_name) (pageOf r) = .fileNotFound msg →
      validateRows fs ex d (l₁ ++ r :: l₂) =
        validateRows fs ex d l₁ ++ ⟨r, msg, none⟩ :: validateRows fs ex d l₂) ∧
    (ex (resolve d r.file_name) (pageOf r) = .error msg →
      validateRows fs ex d (l₁ ++ r :: l₂) =
        validateRows fs ex d l₁ ++
          ⟨r, "Unexpected error: " ++ msg, none⟩ :: validateRows fs ex d l₂) := by
  constructor <;> intro hex <;>
    rw [validateRows_append, validateRows_cons] <;>
    simp [processRow, hfs, hex]

/-- Claim C5 witness: a `FileNotFoundError` with message `"OCR Failed"`
raised between two healthy rows becomes that row's sole mismatch, with
the surrounding rows unaffected. -/
theorem C5_exception_per_row_witness :
    validateRows (fun _ => true)
        (fun _ _ => ExtractOutcome.fileNotFound "OCR Failed") "d"
        ([⟨"b.pdf", "1", "g", "y"⟩] ++ ⟨"a.pdf", "1", "f", "x"⟩ ::
          [⟨"c.pdf", "1", "h", "z"⟩]) =
      validateRows (fun _ => true)
          (fun _ _ => ExtractOutcome.fileNotFound "OCR Failed") "d"
          [⟨"b.pdf", "1", "g", "y"⟩] ++
        ⟨⟨"a.pdf", "1", "f", "x"⟩, "OCR Failed", none⟩ ::
          validateRows (fun _ => true)
            (fun _ _ => ExtractOutcome.fileNotFound "OCR Failed") "d"
            [⟨"c.pdf", "1", "h", "z"⟩] :=
  (C5_exception_per_row (fun _ => true)
      (fun _ _ => ExtractOutcome.fileNotFound "OCR Failed") "d"
      [⟨"b.pdf", "1", "g", "y"⟩] [⟨"c.pdf", "1", "h", "z"⟩]
      ⟨"a.pdf", "1", "f", "x"⟩ "OCR Failed" (by decide)).1 (by decide)

/-- Claim C6: the mismatch list returned by `validate` preserves the
relative order of the originating truth rows: when row `a` precedes row
`b` in the source and both produce a mismatch record, `a`'s record
precedes `b`'s in the returned list. -/
theorem C6_order_preserved (fs : String → Bool)
    (ex : String → Int → ExtractOutcome) (d : String) (hs : List String)
    (l₁ l₂ l₃ : List Row) (a b : Row) (ma mb : Mismatch)
    (hh : hasRequiredHeaders hs = true)
    (ha : (processRow fs ex d a).1 = some ma)
    (hb : (processRow fs ex d b).1 = some mb) :
    validate fs ex d (.table hs (l₁ ++ a :: (l₂ ++ b :: l₃))) =
      .ok (validateRows fs ex d l₁ ++ ma ::
        (validateRows fs ex d l₂ ++ mb :: validateRows fs ex d l₃)) := by
  rw [validate, if_pos hh, validateRows_append, validateRows_cons,
    validateRows_append, validateRows_cons, ha, hb]
  simp

/-- Claim C6 witness: two mismatching rows around a clean one come back
in source order. -/
theorem C6_order_preserved_witness :
    validate (fun _ => false) (fun _ _ => ExtractOutcome.ok "") "d"
        (.table ["file_name", "page", "field_name", "expected_text"]
          ([] ++ ⟨"a.pdf", "1", "f", "x"⟩ ::
            ([] ++ ⟨"b.pdf", "1", "g", "y"⟩ :: []))) =
      .ok (validateRows (fun _ => false) (fun _ _ => ExtractOutcome.ok "") "d" [] ++
        ⟨⟨"a.pdf", "1", "f", "x"⟩, "PDF not found: d/a.pdf", none⟩ ::
          (validateRows (fun _ => false) (fun _ _ => ExtractOutcome.ok "") "d" [] ++
            ⟨⟨"b.pdf", "1", "g", "y"⟩, "PDF not found: d/b.pdf", none⟩ ::
              validateRows (fun _ => false) (fun _ _ => ExtractOutcome.ok "") "d" [])) :=
  C6_order_preserved (fun _ => false) (fun _ _ => ExtractOutcome.ok "") "d"
    ["file_name", "page", "field_name", "expected_text"] [] [] []
    ⟨"a.pdf", "1", "f", "x"⟩ ⟨"b.pdf", "1", "g", "y"⟩
    ⟨⟨"a.pdf", "1", "f", "x"⟩, "PDF not found: d/a.pdf", none⟩
    ⟨⟨"b.pdf", "1", "g", "y"⟩, "PDF not found: d/b.pdf", none⟩
    (by decide) (by decide) (by decide)

/-- Claim C7: `validate` raises exactly for the structural truth-source
failures (missing, unreadable, or a required column absent), each decided
independently of the rows; for any source with the required columns it
returns the full mismatch list of the row loop without raising, whatever
the rows hold. -/
theorem C7_structural_preconditions (fs : String → Bool)
    (ex : String → Int → ExtractOutcome) (d : String)
    (headersGood headersBad : List String)
    (rows rowsB rowsB2 : List Row) (msg : String)
    (hg : hasRequiredHeaders headersGood = true)
    (hb : hasRequiredHeaders headersBad = false) :
    validate fs ex d (.table headersGood rows) =
      .ok (validateRows fs ex d rows) ∧
    validate fs ex d .missing = .error "Truth CSV file not found" ∧
    validate fs ex d (.unreadable msg) = .error msg ∧
    validate fs ex d (.table headersBad rowsB) =
      .error "Truth CSV missing required headers" ∧
    validate fs ex d (.table headersBad rowsB) =
      validate fs ex d (.table headersBad rowsB2) := by
  refine ⟨?_, rfl, rfl, ?_, ?_⟩ <;> simp [validate, hg, hb]

/-- Claim C7 witness: on a well-formed truth source every row may
mismatch and the run still completes with the full list; the structural
failures error out. -/
theorem C7_structural_preconditions_witness :
    validate (fun _ => false) (fun _ _ => ExtractOutcome.ok "") "d"
        (.table ["file_name", "page", "field_name", "expected_text"]
          [⟨"a.pdf", "1", "f", "x"⟩]) =
      .ok (validateRows (fun _ => false) (fun _ _ => ExtractOutcome.ok "") "d"
        [⟨"a.pdf", "1", "f", "x"⟩]) ∧
    validate (fun _ => false) (fun _ _ => ExtractOutcome.ok "") "d" .missing =
      .error "Truth CSV file not found" ∧
    validate (fun _ => false) (fun _ _ => ExtractOutcome.ok "") "d"
        (.unreadable "bad encoding") = .error "bad encoding" ∧
    validate (fun _ => false) (fun _ _ => ExtractOutcome.ok "") "d"
        (.table ["file_name", "page"] [⟨"a.pdf", "1", "f", "x"⟩]) =
      .error "Truth CSV missing required headers" ∧
    validate (fun _ => false) (fun _ _ => ExtractOutcome.ok "") "d"
        (.table ["file_name", "page"] [⟨"a.pdf", "1", "f", "x"⟩]) =
      validate (fun _ => false) (fun _ _ => ExtractOutcome.ok "") "d"
        (.table ["file_name", "page"] []) :=
  C7_structural_preconditions (fun _ => false) (fun _ _ => ExtractOutcome.ok "")
    "d" ["file_name", "page", "field_name", "expected_text"]
    ["file_name", "page"] [⟨"a.pdf", "1", "f", "x"⟩]
    [⟨"a.pdf", "1", "f", "x"⟩] [] "bad encoding" (by decide) (by decide)

/-- Claim C8: a truth row whose resolved `pdf_dir / file_name` does not
exist yields exactly one mismatch whose `validation_error` is
`"PDF not found: "` followed by the resolved path, the extractor is not
invoked for that row (no invocation is recorded and the row's outcome is
the same under every extractor), and the surrounding rows are processed
unaffected. -/
theorem C8_pdf_not_found (fs : String → Bool)
    (ex ex2 : String → Int → ExtractOutcome) (d : String) (l₁ l₂ : List Row)
    (r : Row) (h : fs (resolve d r.file_name) = false) :
    validateRows fs ex d (l₁ ++ r :: l₂) =
      validateRows fs ex d l₁ ++
        ⟨r, "PDF not found: " ++ resolve d r.file_name, none⟩ ::
          validateRows fs ex d l₂ ∧
    processRow fs ex2 d r =
      (some ⟨r, "PDF not found: " ++ resolve d r.file_name, none⟩, []) := by
  constructor
  · rw [validateRows_append, validateRows_cons]
    simp [processRow, h]
  · simp [processRow, h]

/-- Claim C8 witness: a row referencing `nonexistent.pdf` yields the one
`"PDF not found"` record with the resolved path, with no extractor
invocation recorded. -/
theorem C8_pdf_not_found_witness :
    validateRows (fun _ => false) (fun _ _ => ExtractOutcome.ok "text") "d"
        ([] ++ ⟨"nonexistent.pdf", "1", "f", "x"⟩ :: []) =
      validateRows (fun _ => false) (fun _ _ => ExtractOutcome.ok "text") "d" [] ++
        ⟨⟨"nonexistent.pdf", "1", "f", "x"⟩,
          "PDF not found: " ++ resolve "d" "nonexistent.pdf", none⟩ ::
          validateRows (fun _ => false) (fun _ _ => ExtractOutcome.ok "text") "d" [] ∧
    processRow (fun _ => false) (fun _ _ => ExtractOutcome.error "never called")
        "d" ⟨"nonexistent.pdf", "1", "f", "x"⟩ =
      (some ⟨⟨"nonexistent.pdf", "1", "f", "x"⟩,
        "PDF not found: " ++ resolve "d" "nonexistent.pdf", none⟩, []) :=
  C8_pdf_not_found (fun _ => false) (fun _ _ => ExtractOutcome.ok "text")
    (fun _ _ => ExtractOutcome.error "never called") "d" [] []
    ⟨"nonexistent.pdf", "1", "f", "x"⟩ (by decide)

theorem callExtractText_eq (engine : String → Int → ExtractOutcome)
    (p : String) (pg : Int) :
    callExtractText engine p pg = .error unexpectedKeywordMsg :=
  rfl

theorem validateRows_asWritten_no_mismatch (fs : String → Bool)
    (engine : String → Int → ExtractOutcome) (d : String) (rows : List Row) :
    (validateRows fs (callExtractText engine) d rows).all
      (fun m => m.validation_error != "Mismatch") = true := by
  induction rows with
  | nil => rfl
  | cons r l ih =>
    rw [validateRows_cons, List.all_append]
    have hr : (processRow fs (callExtractText engine) d r).1.toList.all
        (fun m => m.validation_error != "Mismatch") = true := by
      cases hfs : fs (resolve d r.file_name)
      · simp only [processRow, hfs, Bool.false_eq_true, if_false,
          Option.toList_some, List.all_cons, List.all_nil, Bool.and_true,
          bne_iff_ne, ne_eq]
        exact append_ne_of_length_lt _ _ _ (by decide)
      · simp only [processRow, hfs, if_true, callExtractText_eq,
          Option.toList_some, List.all_cons, List.all_nil, Bool.and_true,
          bne_iff_ne, ne_eq]
        exact append_ne_of_length_lt _ _ _ (by decide)
    rw [hr, ih]
    rfl

/-- Claim C10: through `validate` as written, the extractor call raises a
`TypeError` for the unexpected keyword arguments before any extraction
happens, so every row whose resolved PDF exists becomes a mismatch whose
`validation_error` starts with `"Unexpected error: "`, and no record of
any run ever carries `validation_error = "Mismatch"`. -/
theorem C10_call_kwargs_type_error (fs : String → Bool)
    (engine : String → Int → ExtractOutcome) (d : String) (l₁ l₂ : List Row)
    (r : Row) (rows : List Row)
    (h : fs (resolve d r.file_name) = true) :
    validateRows fs (callExtractText engine) d (l₁ ++ r :: l₂) =
      validateRows fs (callExtractText engine) d l₁ ++
        ⟨r, "Unexpected error: " ++ unexpectedKeywordMsg, none⟩ ::
          validateRows fs (callExtractText engine) d l₂ ∧
    unexpectedKeywordMsg =
      "extract_text() got an unexpected keyword argument project_id" ∧
    isPrefixOfL ("Unexpected error: ").data
      ("Unexpected error: " ++ unexpectedKeywordMsg).data = true ∧
    (validateRows fs (callExtractText engine) d rows).all
      (fun m => m.validation_error != "Mismatch") = true := by
  refine ⟨?_, by decide, by decide,
    validateRows_asWritten_no_mismatch fs engine d rows⟩
  rw [validateRows_append, validateRows_cons]
  simp [processRow, h, callExtractText_eq]

/-- Claim C10 witness: one row with an existing PDF under the as-written
call produces the `"Unexpected error: ..."` mismatch, and its run
contains no `"Mismatch"` record. -/
theorem C10_call_kwargs_type_error_witness :
    validateRows (fun _ => true)
        (callExtractText (fun _ _ => ExtractOutcome.ok "unreached")) "d"
        ([] ++ ⟨"a.pdf", "1", "f", "x"⟩ :: []) =
      validateRows (fun _ => true)
          (callExtractText (fun _ _ => ExtractOutcome.ok "unreached")) "d" [] ++
        ⟨⟨"a.pdf", "1", "f", "x"⟩,
          "Unexpected error: " ++ unexpectedKeywordMsg, none⟩ ::
          validateRows (fun _ => true)
            (callExtractText (fun _ _ => ExtractOutcome.ok "unreached")) "d" [] ∧
    unexpectedKeywordMsg =
      "extract_text() got an unexpected keyword argument project_id" ∧
    isPrefixOfL ("Unexpected error: ").data
      ("Unexpected error: " ++ unexpectedKeywordMsg).data = true ∧
    (validateRows (fun _ => true)
        (callExtractText (fun _ _ => ExtractOutcome.ok "unreached")) "d"
        [⟨"a.pdf", "1", "f", "x"⟩]).all
      (fun m => m.validation_error != "Mismatch") = true :=
  C10_call_kwargs_type_error (fun _ => true)
    (fun _ _ => ExtractOutcome.ok "unreached") "d" [] []
    ⟨"a.pdf", "1", "f", "x"⟩ [⟨"a.pdf", "1", "f", "x"⟩] (by decide)

/-- Claim C1, evaluated on the code: for an existing PDF, engine.py
re-raises every external-tool failure — a missing tesseract binary
surfaces as `FileNotFoundError`, a non-zero exit as
`CalledProcessError`, a missing output file as `RuntimeError` — instead
of returning the empty string; only the missing-input-PDF half of the
claim holds (an immediate `FileNotFoundError`). -/
theorem C1_tool_failures_propagate :
    extract_text ⟨true, fun _ => .binaryMissing "tesseract not found", none⟩
        "a.pdf" 1 "eng+kor" "tmp" "a" =
      .raisesFileNotFound "tesseract not found" ∧
    extract_text ⟨true, fun _ => .exitNonzero 1 "Tess Error", some "HELLO"⟩
        "a.pdf" 1 "eng+kor" "tmp" "a" = .raisesCalledProcessError 1 ∧
    extract_text ⟨true, fun _ => .success "" "warn", none⟩
        "a.pdf" 1 "eng+kor" "tmp" "a" =
      .raisesRuntimeError
        "Tesseract failed to create output file. Check Tesseract logs or command syntax. Stderr: warn" ∧
    extract_text ⟨false, fun _ => .success "" "", some "HELLO"⟩
        "a.pdf" 1 "eng+kor" "tmp" "a" =
      .raisesFileNotFound "Input PDF not found: a.pdf" ∧
    extract_text ⟨true, fun _ => .binaryMissing "tesseract not found", none⟩
        "a.pdf" 1 "eng+kor" "tmp" "a" ≠ .ok "" := by
  decide

/-- Claim C2, evaluated on the code: a call for page 2 of an existing PDF
performs exactly one external invocation — tesseract run directly on the
whole PDF with the language hint and `--psm 4` — with no rasterizing
step, and no argument carrying a first/last-page bound or a 300-DPI
setting; the page number only reaches the temporary output file name. -/
theorem C2_single_invocation_no_rasterizer :
    engineInvocations ⟨true, fun _ => .success "" "", some "HELLO"⟩
        "a.pdf" 2 "eng+kor" "tmp" "a" =
      [["tesseract", "a.pdf", "tmp/a_p2", "-l", "eng+kor", "--psm", "4"]] ∧
    (engineInvocations ⟨true, fun _ => .success "" "", some "HELLO"⟩
        "a.pdf" 2 "eng+kor" "tmp" "a").length = 1 ∧
    (["tesseract", "a.pdf", "tmp/a_p2", "-l", "eng+kor", "--psm", "4"].all
      (fun arg => !pyIn "FirstPage" arg && !pyIn "LastPage" arg &&
        !pyIn "300" arg && !pyIn "gs" arg)) = true := by
  decide

/-- Claim C3, evaluated on the code: engine.py validates the page number
nowhere — `extract_text` with `page = 0` or `page = -1` on an existing
PDF still performs the tesseract invocation and returns its output
instead of raising an invalid-argument error beforehand. -/
theorem C3_no_page_validation :
    extract_text ⟨true, fun _ => .success "" "", some "HELLO"⟩
        "a.pdf" 0 "eng+kor" "tmp" "a" = .ok "HELLO" ∧
    extract_text ⟨true, fun _ => .success "" "", some "HELLO"⟩
        "a.pdf" (-1) "eng+kor" "tmp" "a" = .ok "HELLO" ∧
    engineInvocations ⟨true, fun _ => .success "" "", some "HELLO"⟩
        "a.pdf" 0 "eng+kor" "tmp" "a" =
      [["tesseract", "a.pdf", "tmp/a_p0", "-l", "eng+kor", "--psm", "4"]] ∧
    (engineInvocations ⟨true, fun _ => .success "" "", some "HELLO"⟩
        "a.pdf" (-1) "eng+kor" "tmp" "a").length = 1 := by
  decide

/-- Claim C9, evaluated on the code: because `typer.Exit` subclasses
`Exception`, the `typer.Exit(0)` and `typer.Exit(1)` raised inside the
`try` block of `run_validation` are caught by its own
`except Exception` handler, which replaces them with `typer.Exit(3)`;
so both the no-mismatch and the mismatches-found runs exit with code 3,
never 0 or 1, while the 2, 4 and 5 mappings behave as claimed. -/
theorem C9_exit_code_dispatch :
    run_validation (some "p") (some "proc") (.returns []) = .exit 3 ∧
    run_validation (some "p") (some "proc")
        (.returns [⟨⟨"a.pdf", "1", "f", "x"⟩, "Mismatch", none⟩]) = .exit 3 ∧
    run_validation (some "p") (some "proc")
        (.raises (.fileNotFound "Truth CSV file not found")) = .exit 2 ∧
    run_validation (some "p") (some "proc")
        (.raises (.importError "no module named google.cloud")) = .exit 5 ∧
    run_validation (some "p") (some "proc") (.raises (.other "boom")) =
      .exit 3 ∧
    run_validation none (some "proc") (.returns []) = .exit 4 ∧
    run_validation (some "p") none (.returns []) = .exit 4 ∧
    run_validation (some "p") (some "proc") (.returns []) ≠ .exit 0 ∧
    run_validation (some "p") (some "proc")
        (.returns [⟨⟨"a.pdf", "1", "f", "x"⟩, "Mismatch", none⟩]) ≠ .exit 1 := by
  decide

end LDG
